import Mathlib

set_option maxRecDepth 4000

/-
Verification development for the SageMaker DeepSpeed launcher repository.

The repository has one script with logic worth checking, ds_launcher.py:
it reads cluster topology from the environment (SM_NUM_GPUS, SM_HOSTS,
SM_CURRENT_HOST), computes this node's rank as the position of the current
host in the host list, parses one command-line option (--training_script)
while forwarding all other arguments, builds a single shell command for the
external deepspeed launcher, and runs it, swallowing any exception the run
raises.  The second script (sagemaker_launch.py) is pure configuration for
an external job-submission client and has no logic to model.

The development below is a shallow embedding of ds_launcher.py:
  - JValue models the Python values the script manipulates (JSON results
    and environment reads);
  - PyErr models the exceptions the script can raise;
  - pyInt models int(str), jsonLoads models json.loads on the JSON
    fragment the script can receive, pyLen models len(), pyIndex models
    the .index method dispatch on the decoded value;
  - parse_args models ArgumentParser.parse_known_args for the single
    declared option --training_script (plus the automatic -h and --help);
  - main and deepspeed_launch model the script's control flow; effects
    (print, subprocess.run, logger.info) are collected in a trace, and the
    behaviour of the spawned child is an oracle parameter (RunOutcome).
-/

namespace DsLauncher

/-- Python values as far as ds_launcher.py manipulates them: results of
json.loads (None, bool, int, str, list, dict in insertion order) and the
values read from the environment (str, or the int 0 default). -/
inductive JValue : Type where
  | jnull : JValue
  | jbool : Bool → JValue
  | jnum : Int → JValue
  | jstr : String → JValue
  | jarr : List JValue → JValue
  | jobj : List (String × JValue) → JValue

/-- The Python exceptions reachable in ds_launcher.py: ValueError (int()
on a bad literal, list.index miss, str.index miss), TypeError (len() or
str.index on a wrong type), AttributeError (.index on a dict or int),
json.JSONDecodeError, and SystemExit (argparse help or usage error). -/
inductive PyErr : Type where
  | valueError : String → PyErr
  | typeError : String → PyErr
  | attributeError : String → PyErr
  | jsonDecodeError : PyErr
  | systemExit : Nat → PyErr
deriving DecidableEq, Repr

/-- Strip leading and trailing whitespace characters, as int(str) does
before parsing (the model covers the ASCII whitespace of
Char.isWhitespace; CPython also strips further Unicode spaces). -/
def stripChars (cs : List Char) : List Char :=
  ((cs.dropWhile Char.isWhitespace).reverse.dropWhile Char.isWhitespace).reverse

/-- Numeric value of an ASCII digit character. -/
def digitVal (c : Char) : Nat := c.toNat - '0'.toNat

/-- Continue a base-10 literal after its first digit: further digits, with
single underscores allowed only between two digits (CPython int grammar). -/
def intDigits : Nat → List Char → Option Nat
  | acc, [] => some acc
  | acc, '_' :: c :: cs =>
    if c.isDigit then intDigits (acc * 10 + digitVal c) cs else none
  | _, ['_'] => none
  | acc, c :: cs =>
    if c.isDigit then intDigits (acc * 10 + digitVal c) cs else none

/-- A nonempty run of digits (with internal underscores), as accepted after
the optional sign by int(str). -/
def intCore : List Char → Option Nat
  | [] => none
  | c :: cs => if c.isDigit then intDigits (digitVal c) cs else none

/-- Model of CPython int(s) for a str argument: strip whitespace, optional
single + or - sign, then a nonempty digit run with underscores between
digits; anything else raises ValueError.  (The model reads ASCII digits;
CPython additionally accepts Unicode decimal digits.) -/
def pyInt (s : String) : Except PyErr Int :=
  match stripChars s.data with
  | '+' :: cs =>
    match intCore cs with
    | some n => .ok (n : Int)
    | none => .error (.valueError ("invalid literal for int with base 10: " ++ s))
  | '-' :: cs =>
    match intCore cs with
    | some n => .ok (-(n : Int))
    | none => .error (.valueError ("invalid literal for int with base 10: " ++ s))
  | cs =>
    match intCore cs with
    | some n => .ok (n : Int)
    | none => .error (.valueError ("invalid literal for int with base 10: " ++ s))

/-- JSON insignificant whitespace (RFC 8259, as json.loads skips). -/
def jsonWs (c : Char) : Bool := c = ' ' || c = '\t' || c = '\n' || c = '\r'

/-- Skip JSON whitespace. -/
def skipWs (cs : List Char) : List Char := cs.dropWhile jsonWs

/-- Value of a hexadecimal digit, for \u escapes (lower or upper case). -/
def hexVal (c : Char) : Option Nat :=
  let n := c.toNat
  if c.isDigit then some (digitVal c)
  else if 97 ≤ n && n ≤ 102 then some (n - 87)
  else if 65 ≤ n && n ≤ 70 then some (n - 55)
  else none

/-- Set a key in a dict kept as an insertion-ordered association list:
an existing key keeps its position and gets the new value, as in a Python
dict. -/
def objSet (k : String) (v : JValue) : List (String × JValue) → List (String × JValue)
  | [] => [(k, v)]
  | (k2, v2) :: rest => if k2 = k then (k, v) :: rest else (k2, v2) :: objSet k v rest

/-- Build a dict from parsed key-value pairs in order; a repeated key keeps
its first position and the last value, as json.loads does. -/
def buildObj (fields : List (String × JValue)) : List (String × JValue) :=
  fields.foldl (fun m kv => objSet kv.1 kv.2 m) []

/-- Parse the remainder of a JSON string literal (after the opening quote),
accumulating characters.  Escapes are the RFC 8259 ones; a \u escape takes
four hex digits (surrogate-pair recombination is not modelled); raw control
characters are rejected as in strict json.loads. -/
def parseJStrAux : List Char → List Char → Option (String × List Char)
  | acc, '"' :: cs => some (String.mk acc.reverse, cs)
  | acc, '\\' :: e :: cs =>
    match e with
    | '"' => parseJStrAux ('"' :: acc) cs
    | '\\' => parseJStrAux ('\\' :: acc) cs
    | '/' => parseJStrAux ('/' :: acc) cs
    | 'b' => parseJStrAux ('\x08' :: acc) cs
    | 'f' => parseJStrAux ('\x0c' :: acc) cs
    | 'n' => parseJStrAux ('\n' :: acc) cs
    | 'r' => parseJStrAux ('\x0d' :: acc) cs
    | 't' => parseJStrAux ('\t' :: acc) cs
    | 'u' =>
      match cs with
      | h1 :: h2 :: h3 :: h4 :: cs2 =>
        match hexVal h1, hexVal h2, hexVal h3, hexVal h4 with
        | some a, some b, some c, some d =>
          parseJStrAux (Char.ofNat (((a * 16 + b) * 16 + c) * 16 + d) :: acc) cs2
        | _, _, _, _ => none
      | _ => none
    | _ => none
  | acc, c :: cs => if c.toNat < 32 then none else parseJStrAux (c :: acc) cs
  | _, [] => none

/-- Consume a maximal run of digits, extending an accumulated value. -/
def digitsTake : Nat → List Char → Nat × List Char
  | acc, [] => (acc, [])
  | acc, c :: cs =>
    if c.isDigit then digitsTake (acc * 10 + digitVal c) cs else (acc, c :: cs)

/-- Reject a fraction or exponent after an integer part: the model covers
the integer JSON numbers the launcher's inputs use (json.loads would
produce a float there, which the development does not model). -/
def floatGuard (n : Nat) : List Char → Option (Nat × List Char)
  | '.' :: _ => none
  | 'e' :: _ => none
  | 'E' :: _ => none
  | cs => some (n, cs)

/-- Integer part of a JSON number (leading zeros are not consumed beyond a
single 0, per the JSON grammar). -/
def parseJNatPart : List Char → Option (Nat × List Char)
  | '0' :: cs => floatGuard 0 cs
  | c :: cs =>
    if c.isDigit then
      let p := digitsTake (digitVal c) cs
      floatGuard p.1 p.2
    else none
  | [] => none

/-- A JSON number with optional leading minus (integer-valued). -/
def parseJNum : List Char → Option (Int × List Char)
  | '-' :: cs =>
    match parseJNatPart cs with
    | some (n, rest) => some ((-(n : Int)), rest)
    | none => none
  | cs =>
    match parseJNatPart cs with
    | some (n, rest) => some ((n : Int), rest)
    | none => none

mutual

/-- Recursive-descent JSON value, fuel-indexed to make termination
structural; jsonLoads supplies ample fuel. -/
def parseJVal : Nat → List Char → Option (JValue × List Char)
  | 0, _ => none
  | Nat.succ fuel, cs =>
    match skipWs cs with
    | 'n' :: 'u' :: 'l' :: 'l' :: rest => some (.jnull, rest)
    | 't' :: 'r' :: 'u' :: 'e' :: rest => some (.jbool true, rest)
    | 'f' :: 'a' :: 'l' :: 's' :: 'e' :: rest => some (.jbool false, rest)
    | '"' :: rest => (parseJStrAux [] rest).map (fun p => (.jstr p.1, p.2))
    | '[' :: rest =>
      match skipWs rest with
      | ']' :: rest2 => some (.jarr [], rest2)
      | _ => (parseJItems fuel rest).map (fun p => (.jarr p.1, p.2))
    | '\x7b' :: rest =>
      match skipWs rest with
      | '\x7d' :: rest2 => some (.jobj [], rest2)
      | _ => (parseJFields fuel rest).map (fun p => (.jobj (buildObj p.1), p.2))
    | rest => (parseJNum rest).map (fun p => (.jnum p.1, p.2))

/-- One or more comma-separated array items up to the closing bracket. -/
def parseJItems : Nat → List Char → Option (List JValue × List Char)
  | 0, _ => none
  | Nat.succ fuel, cs =>
    match parseJVal fuel cs with
    | none => none
    | some (v, rest) =>
      match skipWs rest with
      | ',' :: rest2 => (parseJItems fuel rest2).map (fun p => (v :: p.1, p.2))
      | ']' :: rest2 => some ([v], rest2)
      | _ => none

/-- One or more comma-separated object members up to the closing brace,
returned in source order (buildObj then applies dict key semantics). -/
def parseJFields : Nat → List Char → Option (List (String × JValue) × List Char)
  | 0, _ => none
  | Nat.succ fuel, cs =>
    match skipWs cs with
    | '"' :: rest =>
      match parseJStrAux [] rest with
      | none => none
      | some (k, rest2) =>
        match skipWs rest2 with
        | ':' :: rest3 =>
          match parseJVal fuel rest3 with
          | none => none
          | some (v, rest4) =>
            match skipWs rest4 with
            | ',' :: rest5 => (parseJFields fuel rest5).map (fun p => ((k, v) :: p.1, p.2))
            | '\x7d' :: rest5 => some ([(k, v)], rest5)
            | _ => none
        | _ => none
    | _ => none

end

/-- Model of json.loads on the inputs the launcher can see: a full JSON
document, erroring (json.JSONDecodeError, a ValueError subclass) on
malformed input or trailing data.  Numbers are covered in their integer
form; a fraction or exponent (which json.loads would decode as a float) is
outside the model and reported as a decode error. -/
def jsonLoads (s : String) : Except PyErr JValue :=
  match parseJVal (s.length + 2) s.data with
  | some (v, rest) => if skipWs rest = [] then .ok v else .error .jsonDecodeError
  | none => .error .jsonDecodeError

/-- Ordered-dict lookup. -/
def jlookup (k : String) : List (String × JValue) → Option JValue
  | [] => none
  | (k2, v) :: rest => if k2 = k then some v else jlookup k rest

mutual

/-- Python == on the modelled values: numeric cross-type equality between
bool and int (True == 1), structural equality on strings, element-wise on
lists, key-wise on dicts, and False across other type pairs. -/
def pyEq : JValue → JValue → Bool
  | .jnull, .jnull => true
  | .jbool a, .jbool b => a == b
  | .jbool a, .jnum b => (if a then (1 : Int) else 0) == b
  | .jnum a, .jbool b => a == (if b then (1 : Int) else 0)
  | .jnum a, .jnum b => a == b
  | .jstr a, .jstr b => a == b
  | .jarr a, .jarr b => pyEqItems a b
  | .jobj a, .jobj b => a.length == b.length && pyEqFields a b
  | _, _ => false

/-- Element-wise list equality. -/
def pyEqItems : List JValue → List JValue → Bool
  | [], [] => true
  | a :: as, b :: bs => pyEq a b && pyEqItems as bs
  | _, _ => false

/-- Every key of the first dict maps to an equal value in the second. -/
def pyEqFields : List (String × JValue) → List (String × JValue) → Bool
  | [], _ => true
  | (k, v) :: rest, b =>
    match jlookup k b with
    | some w => pyEq v w && pyEqFields rest b
    | none => false

end

/-- Model of Python len() on the decoded SM_HOSTS value (line 33):
defined for str, list and dict, TypeError otherwise. -/
def pyLen : JValue → Except PyErr Nat
  | .jstr s => .ok s.length
  | .jarr xs => .ok xs.length
  | .jobj fs => .ok fs.length
  | .jnull => .error (.typeError "object of type NoneType has no len")
  | .jbool _ => .error (.typeError "object of type bool has no len")
  | .jnum _ => .error (.typeError "object of type int has no len")

/-- First-characters test on character lists. -/
def beginsWith : List Char → List Char → Bool
  | [], _ => true
  | _ :: _, [] => false
  | a :: as, b :: bs => a == b && beginsWith as bs

/-- First index at which a needle occurs in a haystack, for str.index. -/
def findSubAt (needle : List Char) : Nat → List Char → Option Nat
  | i, hay =>
    if beginsWith needle hay then some i
    else
      match hay with
      | [] => none
      | _ :: t => findSubAt needle (i + 1) t

/-- Index of the first element satisfying p, counting from i: the loop of
list.index. -/
def listIndexAux (p : JValue → Bool) : Nat → List JValue → Option Nat
  | _, [] => none
  | i, v :: vs => if p v then some i else listIndexAux p (i + 1) vs

/-- Model of the attribute access and call hosts.index(current_host) at
line 35: a list searches for an == element (ValueError when absent), a str
has a substring index method, and dict, int, bool and None have no index
attribute at all, so the access raises AttributeError. -/
def pyIndex (self x : JValue) : Except PyErr Nat :=
  match self with
  | .jarr xs =>
    match listIndexAux (fun v => pyEq v x) 0 xs with
    | some i => .ok i
    | none => .error (.valueError "x not in list")
  | .jobj _ => .error (.attributeError "dict object has no attribute index")
  | .jstr s =>
    match x with
    | .jstr sub =>
      match findSubAt sub.data 0 s.data with
      | some i => .ok i
      | none => .error (.valueError "substring not found")
    | _ => .error (.typeError "must be str not other type")
  | .jnum _ => .error (.attributeError "int object has no attribute index")
  | .jbool _ => .error (.attributeError "bool object has no attribute index")
  | .jnull => .error (.attributeError "NoneType object has no attribute index")

mutual

/-- Python repr of the modelled values (string escaping inside repr is not
modelled; the launcher only formats str and int values). -/
def pyRepr : JValue → String
  | .jnull => "None"
  | .jbool true => "True"
  | .jbool false => "False"
  | .jnum n => toString n
  | .jstr s => "\x27" ++ s ++ "\x27"
  | .jarr xs => "[" ++ pyReprItems xs ++ "]"
  | .jobj fs => "\x7b" ++ pyReprFields fs ++ "\x7d"

/-- Comma-separated reprs of list items. -/
def pyReprItems : List JValue → String
  | [] => ""
  | [v] => pyRepr v
  | v :: vs => pyRepr v ++ ", " ++ pyReprItems vs

/-- Comma-separated reprs of dict members. -/
def pyReprFields : List (String × JValue) → String
  | [] => ""
  | [(k, v)] => "\x27" ++ k ++ "\x27: " ++ pyRepr v
  | (k, v) :: fs => "\x27" ++ k ++ "\x27: " ++ pyRepr v ++ ", " ++ pyReprFields fs

end

/-- Python str() as used by the f-string at line 36: a str formats as
itself, everything else as its repr. -/
def pyStr : JValue → String
  | .jstr s => s
  | v => pyRepr v

/-- The process environment: a map from variable names to optional string
values, as os.environ presents it. -/
def Env : Type := String → Option String

/-- Line 31: num_gpus = int(os.environ.get("SM_NUM_GPUS", 0)).  When the
variable is absent, get returns the int 0 and int(0) is 0; when present,
the string value goes through int(str). -/
def num_gpus_of (env : Env) : Except PyErr Int :=
  match env "SM_NUM_GPUS" with
  | some s => pyInt s
  | none => .ok 0

/-- Line 32: hosts = json.loads(os.environ.get("SM_HOSTS", "\x7b\x7d")),
the default being the two-character string of an empty JSON object. -/
def hosts_of (env : Env) : Except PyErr JValue :=
  jsonLoads (match env "SM_HOSTS" with | some s => s | none => "\x7b\x7d")

/-- Line 34: current_host = os.environ.get("SM_CURRENT_HOST", 0) — a str
when the variable is present, the int 0 when absent. -/
def current_host_of (env : Env) : JValue :=
  match env "SM_CURRENT_HOST" with
  | some s => .jstr s
  | none => .jnum 0

/-- Lines 32-35 combined: the rank the launcher computes, i.e. the result
of hosts.index(current_host) on the decoded SM_HOSTS value. -/
def rank_of (env : Env) : Except PyErr Nat :=
  match hosts_of env with
  | .error e => .error e
  | .ok hosts => pyIndex hosts (current_host_of env)

/-- How ArgumentParser classifies one token of argv (Python 3 argparse
with the single declared option --training_script plus the automatic
-h and --help). -/
inductive ArgClass : Type where
  | posArg : ArgClass
  | unknownOpt : ArgClass
  | trOpt : Option String → ArgClass
  | helpOpt : ArgClass
  | ambiguous : ArgClass
deriving DecidableEq, Repr

/-- argparse's negative-number test (regex -digits, or -digits.digits with
an optional integer part): such tokens count as plain arguments because no
declared option looks like a negative number. -/
def negNumMatch (t : String) : Bool :=
  match t.data with
  | '-' :: rest =>
    (decide (rest ≠ []) && rest.all Char.isDigit) ||
    (match rest.dropWhile Char.isDigit with
     | '.' :: frac => decide (frac ≠ []) && frac.all Char.isDigit
     | _ => false)
  | _ => false

/-- Does p occur at the start of t? -/
def strBegins (p t : String) : Bool := beginsWith p.data t.data

/-- Split a token at its first = sign, as argparse does for the
option=value form. -/
def splitAtEq (t : String) : Option (String × String) :=
  match t.data.span (fun c => c != '=') with
  | (pre, '=' :: post) => some (String.mk pre, String.mk post)
  | _ => none

/-- The registered long option strings, for abbreviation matching. -/
def longOptions : List String := ["--training_script", "--help"]

/-- The long options a token abbreviates (argparse allow_abbrev is on by
default: any unambiguous strict prefix such as --train matches). -/
def abbrevCandidates (pre : String) : List String :=
  longOptions.filter (fun o => strBegins pre o)

/-- Fallback classification once no option matched: negative numbers and
tokens containing a space count as plain arguments, anything else is an
unrecognized option (forwarded to the extras by parse_known_args). -/
def restClassify (t : String) : ArgClass :=
  if negNumMatch t then .posArg
  else if t.data.contains ' ' then .posArg
  else .unknownOpt

/-- Model of argparse option recognition (_parse_optional) for this
parser: exact matches, option=value splitting, unambiguous long-option
abbreviation, explicit arguments handed to --help (an error), the
negative-number and embedded-space escapes, and the unknown-option
fallback.  ambiguous stands for a classification that itself aborts with
a usage error (exit code 2). -/
def classify (t : String) : ArgClass :=
  if t = "" then .posArg
  else if strBegins "-" t = false then .posArg
  else if t = "--training_script" then .trOpt none
  else if t = "-h" || t = "--help" then .helpOpt
  else if t.length = 1 then .posArg
  else
    match splitAtEq t with
    | some (pre, val) =>
      if pre = "--training_script" then .trOpt (some val)
      else if pre = "-h" || pre = "--help" then .ambiguous
      else if strBegins "--" pre then
        match abbrevCandidates pre with
        | [o] => if o = "--training_script" then .trOpt (some val) else .ambiguous
        | [] => restClassify t
        | _ => .ambiguous
      else restClassify t
    | none =>
      if strBegins "--" t then
        match abbrevCandidates t with
        | [o] => if o = "--training_script" then .trOpt none else .helpOpt
        | [] => restClassify t
        | _ => .ambiguous
      else if strBegins "-h" t then .ambiguous
      else restClassify t

/-- Is the classification an upfront usage error? -/
def isAmbig : ArgClass → Bool
  | .ambiguous => true
  | _ => false

/-- Token-at-a-time model of parse_known_args: ts is the value stored for
--training_script so far (the last occurrence wins), acc accumulates the
extras in reverse, sep records that a bare -- separator was seen (after
which every token is a plain argument), and awaiting records that a bare
--training_script still needs its value (only a token classified as a
plain argument may fill it; anything else, including the end of argv, is
the usage error "expected one argument", exit code 2).  -h or --help
prints the usage text and exits with status 0. -/
def parseKnownAux : List String → Option String → List String → Bool → Bool →
    Except PyErr (Option String × List String)
  | [], _, _, _, true => .error (.systemExit 2)
  | [], ts, acc, _, false => .ok (ts, acc.reverse)
  | t :: rest, _, acc, sep, true =>
    match classify t with
    | .posArg => parseKnownAux rest (some t) acc sep false
    | _ => .error (.systemExit 2)
  | t :: rest, ts, acc, true, false => parseKnownAux rest ts (t :: acc) true false
  | t :: rest, ts, acc, false, false =>
    if t = "--" then parseKnownAux rest ts (t :: acc) true false
    else
      match classify t with
      | .posArg => parseKnownAux rest ts (t :: acc) false false
      | .unknownOpt => parseKnownAux rest ts (t :: acc) false false
      | .trOpt (some v) => parseKnownAux rest (some v) acc false false
      | .trOpt none => parseKnownAux rest ts acc false true
      | .helpOpt => .error (.systemExit 0)
      | .ambiguous => .error (.systemExit 2)

/-- Lines 12-26: parse_args() returns (parsed.training_script, nargs) from
parse_known_args.  argparse classifies every token before the -- separator
up front, so a token whose classification already aborts (an ambiguous
abbreviation) exits with code 2 before any option is consumed. -/
def parse_args (argv : List String) : Except PyErr (Option String × List String) :=
  if (argv.takeWhile (fun t => t != "--")).any (fun t => isAmbig (classify t))
  then .error (.systemExit 2)
  else parseKnownAux argv none [] false false

/-- Observable actions of the launcher process: a line printed to stdout,
a shell command handed to subprocess.run, a message given to logger.info. -/
inductive Effect : Type where
  | printLn : String → Effect
  | runShell : String → Effect
  | logInfo : String → Effect
deriving DecidableEq, Repr

/-- Oracle for the one subprocess.run call: the child either completes
(subprocess.run without check=True returns a CompletedProcess whatever the
exit status) or the call raises an exception with some message. -/
inductive RunOutcome : Type where
  | completed : Int → RunOutcome
  | raised : String → RunOutcome
deriving DecidableEq, Repr

/-- Lines 51-56: deepspeed_launch(command) runs the command through the
shell and catches any exception, logging it at info level; the function
itself always returns normally. -/
def deepspeed_launch (command : String) (outcome : RunOutcome) :
    List Effect × Except PyErr Unit :=
  match outcome with
  | .completed _ => ([.runShell command], .ok ())
  | .raised e => ([.runShell command, .logInfo e], .ok ())

/-- The f-string "None" formatting of the optional training script path:
argparse leaves the unset option at None, and f-string interpolation of
None is the text None. -/
def trainStr : Option String → String
  | none => "None"
  | some s => s

/-- Line 45: command = f-string "deepspeed --num_gpus=... train_script
joined-args". -/
def mkCommand (num_gpus : Int) (train_script : Option String) (args : List String) :
    String :=
  "deepspeed --num_gpus=" ++ toString num_gpus ++ " " ++ trainStr train_script ++
    " " ++ String.intercalate " " args

/-- Line 36: the topology line printed before parsing arguments. -/
def topoLine (num_gpus : Int) (num_nodes : Nat) (current_host : JValue) (rank : Nat) :
    String :=
  "num_gpus = " ++ toString num_gpus ++ ", num_nodes = " ++ toString num_nodes ++
    ", current_host = " ++ pyStr current_host ++ ", rank = " ++ toString rank

/-- Lines 29-48: main().  Evaluation order follows the source: int() on
SM_NUM_GPUS, json.loads on SM_HOSTS, len(), the rank lookup, the topology
print, parse_args, the command build and print, then deepspeed_launch.
The returned trace lists the effects that happened before termination and
the Except records whether main returned normally or an uncaught exception
propagated out of it. -/
def main (env : Env) (argv : List String) (outcome : RunOutcome) :
    List Effect × Except PyErr Unit :=
  match num_gpus_of env with
  | .error e => ([], .error e)
  | .ok num_gpus =>
    match hosts_of env with
    | .error e => ([], .error e)
    | .ok hosts =>
      match pyLen hosts with
      | .error e => ([], .error e)
      | .ok num_nodes =>
        match pyIndex hosts (current_host_of env) with
        | .error e => ([], .error e)
        | .ok rank =>
          match parse_args argv with
          | .error e =>
            ([.printLn (topoLine num_gpus num_nodes (current_host_of env) rank)],
             .error e)
          | .ok (train_script, args) =>
            ([.printLn (topoLine num_gpus num_nodes (current_host_of env) rank),
              .printLn ("command = " ++ mkCommand num_gpus train_script args)] ++
              (deepspeed_launch (mkCommand num_gpus train_script args) outcome).1,
             (deepspeed_launch (mkCommand num_gpus train_script args) outcome).2)

/-- Keep only the subprocess.run effects of a trace. -/
def isRunShell : Effect → Bool
  | .runShell _ => true
  | _ => false

/-- Does the needle occur contiguously in the haystack? -/
def occursIn (n : List Char) : List Char → Bool
  | [] => n.isEmpty
  | c :: t => beginsWith n (c :: t) || occursIn n t

/-- The needle string occurs contiguously in the haystack string (the
sense in which a command line embeds a piece of text). -/
def strContains (needle hay : String) : Bool := occursIn needle.data hay.data

theorem data_append (a b : String) : (a ++ b).data = a.data ++ b.data := rfl

theorem beginsWith_same (n b : List Char) : beginsWith n (n ++ b) = true := by
  induction n with
  | nil => rfl
  | cons a as ih => simp [beginsWith, ih]

theorem beginsWith_extend (n : List Char) :
    ∀ h b, beginsWith n h = true → beginsWith n (h ++ b) = true := by
  induction n with
  | nil => intro h b _; rfl
  | cons a as ih =>
    intro h b hb
    cases h with
    | nil => exact absurd hb (by simp [beginsWith])
    | cons c cs =>
      simp [beginsWith] at hb ⊢
      exact ⟨hb.1, ih cs b hb.2⟩

theorem occursIn_nil_needle (hay : List Char) : occursIn [] hay = true := by
  cases hay <;> simp [occursIn, beginsWith, List.isEmpty]

theorem occursIn_here (n b : List Char) : occursIn n (n ++ b) = true := by
  cases n with
  | nil => simpa using occursIn_nil_needle b
  | cons a as =>
    show occursIn (a :: as) ((a :: as) ++ b) = true
    rw [List.cons_append]
    simp [occursIn]
    left
    have := beginsWith_same (a :: as) b
    rwa [List.cons_append] at this

theorem occursIn_append_right (n b a : List Char) (h : occursIn n b = true) :
    occursIn n (a ++ b) = true := by
  induction a with
  | nil => simpa using h
  | cons c cs ih => simp [occursIn]; right; simpa using ih

theorem occursIn_append_left (n : List Char) :
    ∀ a b, occursIn n a = true → occursIn n (a ++ b) = true := by
  intro a
  induction a with
  | nil =>
    intro b h
    cases n with
    | nil => simpa using occursIn_nil_needle b
    | cons x xs => simp [occursIn, List.isEmpty] at h
  | cons c cs ih =>
    intro b h
    simp only [occursIn, Bool.or_eq_true] at h
    rcases h with h | h
    · rw [List.cons_append]
      simp only [occursIn, Bool.or_eq_true]
      left
      have := beginsWith_extend n (c :: cs) b h
      rwa [List.cons_append] at this
    · rw [List.cons_append]
      simp only [occursIn, Bool.or_eq_true]
      right
      exact ih b h

theorem strContains_intro (needle hay : String) (pre post : List Char)
    (hsplit : hay.data = pre ++ (needle.data ++ post)) :
    strContains needle hay = true := by
  unfold strContains
  rw [hsplit]
  exact occursIn_append_right _ _ pre (occursIn_here _ _)

theorem strContains_refl (n : String) : strContains n n = true := by
  unfold strContains
  simpa using occursIn_here n.data []

theorem strContains_drop (n a b : String) (h : strContains n b = true) :
    strContains n (a ++ b) = true := by
  unfold strContains at h ⊢
  rw [data_append]
  exact occursIn_append_right _ _ _ h

theorem strContains_take (n a b : String) (h : strContains n a = true) :
    strContains n (a ++ b) = true := by
  unfold strContains at h ⊢
  rw [data_append]
  exact occursIn_append_left _ _ _ h

theorem strAppend_assoc (a b c : String) : (a ++ b) ++ c = a ++ (b ++ c) := by
  cases a with
  | mk da =>
    cases b with
    | mk db =>
      cases c with
      | mk dc =>
        show String.mk ((da ++ db) ++ dc) = String.mk (da ++ (db ++ dc))
        rw [List.append_assoc]

theorem pyEq_jstr_jstr (a b : String) : pyEq (.jstr a) (.jstr b) = (a == b) := rfl

theorem pyEq_jstr_jnum (a : String) (x : Int) : pyEq (.jstr a) (.jnum x) = false := rfl

theorem listIndexAux_jstr_present (ch : String) :
    ∀ (hosts : List String) (i : Nat), ch ∈ hosts →
      listIndexAux (fun v => pyEq v (.jstr ch)) i (hosts.map .jstr) =
        some (i + hosts.indexOf ch) := by
  intro hosts
  induction hosts with
  | nil => intro i hmem; cases hmem
  | cons h rest ih =>
    intro i hmem
    by_cases hc : h = ch
    · subst hc
      simp only [List.map_cons, listIndexAux, pyEq_jstr_jstr]
      rw [if_pos (by simp), List.indexOf_cons_self]
      simp
    · have hne : (h == ch) = false := by simp [hc]
      have hm2 : ch ∈ rest := by
        rcases List.mem_cons.mp hmem with h1 | h1
        · exact absurd h1.symm hc
        · exact h1
      simp only [List.map_cons, listIndexAux, pyEq_jstr_jstr]
      rw [if_neg (by simp [hne]), ih (i + 1) hm2]
      simp [List.indexOf_cons, hne]
      omega

theorem listIndexAux_jstr_absent (ch : String) :
    ∀ (hosts : List String) (i : Nat), ch ∉ hosts →
      listIndexAux (fun v => pyEq v (.jstr ch)) i (hosts.map .jstr) = none := by
  intro hosts
  induction hosts with
  | nil => intro i _; rfl
  | cons h rest ih =>
    intro i hmem
    have hc : h ≠ ch := fun he => hmem (he ▸ List.mem_cons_self h rest)
    have hne : (h == ch) = false := by simp [hc]
    simp only [List.map_cons, listIndexAux, pyEq_jstr_jstr]
    rw [if_neg (by simp [hne])]
    exact ih (i + 1) (fun hm => hmem (List.mem_cons_of_mem h hm))

theorem listIndexAux_jnum_none (x : Int) :
    ∀ (hosts : List String) (i : Nat),
      listIndexAux (fun v => pyEq v (.jnum x)) i (hosts.map .jstr) = none := by
  intro hosts
  induction hosts with
  | nil => intro i; rfl
  | cons h rest ih =>
    intro i
    simp only [List.map_cons, listIndexAux, pyEq_jstr_jnum]
    rw [if_neg (by simp)]
    exact ih (i + 1)

theorem pyIndex_jstr_present (hosts : List String) (ch : String) (hmem : ch ∈ hosts) :
    pyIndex (.jarr (hosts.map .jstr)) (.jstr ch) = .ok (hosts.indexOf ch) := by
  simp only [pyIndex]
  rw [listIndexAux_jstr_present ch hosts 0 hmem]
  simp

theorem pyIndex_jstr_absent (hosts : List String) (ch : String) (hmem : ch ∉ hosts) :
    pyIndex (.jarr (hosts.map .jstr)) (.jstr ch) = .error (.valueError "x not in list") := by
  simp only [pyIndex]
  rw [listIndexAux_jstr_absent ch hosts 0 hmem]

theorem pyIndex_jnum_absent (hosts : List String) (x : Int) :
    pyIndex (.jarr (hosts.map .jstr)) (.jnum x) = .error (.valueError "x not in list") := by
  simp only [pyIndex]
  rw [listIndexAux_jnum_none x hosts 0]

theorem mkCommand_embeds_gpus (g : Int) (ts : Option String) (nargs : List String) :
    strContains ("--num_gpus=" ++ toString g) (mkCommand g ts nargs) = true := by
  unfold mkCommand
  apply strContains_take
  apply strContains_take
  apply strContains_take
  apply strContains_take
  have hsplit : "deepspeed --num_gpus=" ++ toString g =
      "deepspeed " ++ ("--num_gpus=" ++ toString g) := by
    rw [← strAppend_assoc]
    congr 1
  rw [hsplit]
  exact strContains_drop _ _ _ (strContains_refl _)

theorem mkCommand_embeds_train (g : Int) (ts : Option String) (nargs : List String) :
    strContains (trainStr ts) (mkCommand g ts nargs) = true := by
  unfold mkCommand
  apply strContains_take
  apply strContains_take
  exact strContains_drop _ _ _ (strContains_refl _)

theorem mkCommand_embeds_args (g : Int) (ts : Option String) (nargs : List String) :
    strContains (String.intercalate " " nargs) (mkCommand g ts nargs) = true := by
  unfold mkCommand
  exact strContains_drop _ _ _ (strContains_refl _)

theorem main_err_gpus {env : Env} {argv : List String} {outcome : RunOutcome}
    {e : PyErr} (hG : num_gpus_of env = .error e) :
    main env argv outcome = ([], .error e) := by
  simp only [main, hG]

theorem main_err_hosts {env : Env} {argv : List String} {outcome : RunOutcome}
    {g : Int} {e : PyErr} (hG : num_gpus_of env = .ok g)
    (hH : hosts_of env = .error e) :
    main env argv outcome = ([], .error e) := by
  simp only [main, hG, hH]

theorem main_err_len {env : Env} {argv : List String} {outcome : RunOutcome}
    {g : Int} {hosts : JValue} {e : PyErr} (hG : num_gpus_of env = .ok g)
    (hH : hosts_of env = .ok hosts) (hL : pyLen hosts = .error e) :
    main env argv outcome = ([], .error e) := by
  simp only [main, hG, hH, hL]

theorem main_err_rank {env : Env} {argv : List String} {outcome : RunOutcome}
    {g : Int} {hosts : JValue} {n : Nat} {e : PyErr} (hG : num_gpus_of env = .ok g)
    (hH : hosts_of env = .ok hosts) (hL : pyLen hosts = .ok n)
    (hR : pyIndex hosts (current_host_of env) = .error e) :
    main env argv outcome = ([], .error e) := by
  simp only [main, hG, hH, hL, hR]

theorem main_err_parse {env : Env} {argv : List String} {outcome : RunOutcome}
    {g : Int} {hosts : JValue} {n : Nat} {r : Nat} {e : PyErr}
    (hG : num_gpus_of env = .ok g) (hH : hosts_of env = .ok hosts)
    (hL : pyLen hosts = .ok n) (hR : pyIndex hosts (current_host_of env) = .ok r)
    (hP : parse_args argv = .error e) :
    main env argv outcome =
      ([.printLn (topoLine g n (current_host_of env) r)], .error e) := by
  simp only [main, hG, hH, hL, hR, hP]

theorem main_success (env : Env) (argv : List String) (outcome : RunOutcome)
    {g : Int} {hosts : JValue} {n : Nat} {r : Nat} {ts : Option String}
    {nargs : List String}
    (hG : num_gpus_of env = .ok g) (hH : hosts_of env = .ok hosts)
    (hL : pyLen hosts = .ok n) (hR : pyIndex hosts (current_host_of env) = .ok r)
    (hP : parse_args argv = .ok (ts, nargs)) :
    main env argv outcome =
      ([.printLn (topoLine g n (current_host_of env) r),
        .printLn ("command = " ++ mkCommand g ts nargs)] ++
        (deepspeed_launch (mkCommand g ts nargs) outcome).1,
       (deepspeed_launch (mkCommand g ts nargs) outcome).2) := by
  simp only [main, hG, hH, hL, hR, hP]

/-- The environment of the rank example: hosts a, b, c, current host b. -/
def env1 : Env := fun k =>
  if k = "SM_HOSTS" then some "[\"a\",\"b\",\"c\"]"
  else if k = "SM_CURRENT_HOST" then some "b"
  else none

/-- The environment of the absent-host example: hosts a, b, c, current
host z. -/
def env2 : Env := fun k =>
  if k = "SM_HOSTS" then some "[\"a\",\"b\",\"c\"]"
  else if k = "SM_CURRENT_HOST" then some "z"
  else none

/-- The environment of the concrete command example: four GPUs, one host
h0 which is also the current host. -/
def env6 : Env := fun k =>
  if k = "SM_NUM_GPUS" then some "4"
  else if k = "SM_HOSTS" then some "[\"h0\"]"
  else if k = "SM_CURRENT_HOST" then some "h0"
  else none

/-- One host h0 (the current host) and no SM_NUM_GPUS. -/
def envNoGpus : Env := fun k =>
  if k = "SM_HOSTS" then some "[\"h0\"]"
  else if k = "SM_CURRENT_HOST" then some "h0"
  else none

/-- SM_HOSTS absent; the GPU count is present and well formed. -/
def envNoHosts : Env := fun k =>
  if k = "SM_NUM_GPUS" then some "4"
  else if k = "SM_CURRENT_HOST" then some "h0"
  else none

/-- SM_CURRENT_HOST absent; one host h0. -/
def envNoCurrent : Env := fun k =>
  if k = "SM_HOSTS" then some "[\"h0\"]"
  else none

/-- SM_NUM_GPUS holds a non-numeric string. -/
def envBadGpus : Env := fun k =>
  if k = "SM_NUM_GPUS" then some "four"
  else if k = "SM_HOSTS" then some "[\"h0\"]"
  else if k = "SM_CURRENT_HOST" then some "h0"
  else none

theorem parseKnownAux_extras :
    ∀ (argv : List String) (ts0 : Option String) (acc : List String) (sep aw : Bool)
      (ts : Option String) (nargs : List String),
      parseKnownAux argv ts0 acc sep aw = .ok (ts, nargs) →
      ∃ tail, nargs = acc.reverse ++ tail ∧ tail.Sublist argv := by
  intro argv
  induction argv with
  | nil =>
    intro ts0 acc sep aw ts nargs h
    cases aw with
    | false =>
      simp only [parseKnownAux, Except.ok.injEq, Prod.mk.injEq] at h
      exact ⟨[], by simp [h.2], List.nil_sublist _⟩
    | true => simp [parseKnownAux] at h
  | cons t rest ih =>
    intro ts0 acc sep aw ts nargs h
    cases aw with
    | true =>
      cases hcl : classify t with
      | posArg =>
        simp only [parseKnownAux, hcl] at h
        obtain ⟨tail, htl, hsub⟩ := ih _ _ _ _ _ _ h
        exact ⟨tail, htl, hsub.cons t⟩
      | unknownOpt => simp [parseKnownAux, hcl] at h
      | trOpt v => simp [parseKnownAux, hcl] at h
      | helpOpt => simp [parseKnownAux, hcl] at h
      | ambiguous => simp [parseKnownAux, hcl] at h
    | false =>
      cases sep with
      | true =>
        simp only [parseKnownAux] at h
        obtain ⟨tail, htl, hsub⟩ := ih _ _ _ _ _ _ h
        refine ⟨t :: tail, ?_, hsub.cons₂ t⟩
        rw [htl, List.reverse_cons, List.append_assoc]
        rfl
      | false =>
        by_cases hdd : t = "--"
        · subst hdd
          simp only [parseKnownAux, if_pos rfl] at h
          obtain ⟨tail, htl, hsub⟩ := ih _ _ _ _ _ _ h
          refine ⟨"--" :: tail, ?_, hsub.cons₂ "--"⟩
          rw [htl, List.reverse_cons, List.append_assoc]
          rfl
        · cases hcl : classify t with
          | posArg =>
            simp only [parseKnownAux, if_neg hdd, hcl] at h
            obtain ⟨tail, htl, hsub⟩ := ih _ _ _ _ _ _ h
            refine ⟨t :: tail, ?_, hsub.cons₂ t⟩
            rw [htl, List.reverse_cons, List.append_assoc]
            rfl
          | unknownOpt =>
            simp only [parseKnownAux, if_neg hdd, hcl] at h
            obtain ⟨tail, htl, hsub⟩ := ih _ _ _ _ _ _ h
            refine ⟨t :: tail, ?_, hsub.cons₂ t⟩
            rw [htl, List.reverse_cons, List.append_assoc]
            rfl
          | trOpt v =>
            cases v with
            | some w =>
              simp only [parseKnownAux, if_neg hdd, hcl] at h
              obtain ⟨tail, htl, hsub⟩ := ih _ _ _ _ _ _ h
              exact ⟨tail, htl, hsub.cons t⟩
            | none =>
              simp only [parseKnownAux, if_neg hdd, hcl] at h
              obtain ⟨tail, htl, hsub⟩ := ih _ _ _ _ _ _ h
              exact ⟨tail, htl, hsub.cons t⟩
          | helpOpt => simp [parseKnownAux, if_neg hdd, hcl] at h
          | ambiguous => simp [parseKnownAux, if_neg hdd, hcl] at h

theorem pyInt_not_ok (s : String) (hBad : (pyInt s).isOk = false) :
    pyInt s = .error (.valueError ("invalid literal for int with base 10: " ++ s)) := by
  unfold pyInt at hBad ⊢
  split at hBad <;> split at hBad <;> simp_all [Except.isOk, Except.toBool]

/-- C1: whenever the decoded SM_HOSTS value is a list of host identifier
strings and the current host identifier occurs in it, the rank the
launcher computes (hosts.index(current_host), lines 32-35) is the
zero-based position of the current host identifier in the host list. -/
theorem rank_eq_position_of_current_host (env : Env) (hosts : List String) (ch : String)
    (hH : hosts_of env = .ok (.jarr (hosts.map .jstr)))
    (hC : env "SM_CURRENT_HOST" = some ch)
    (hmem : ch ∈ hosts) :
    rank_of env = .ok (hosts.indexOf ch) := by
  unfold rank_of
  rw [hH]
  have hcur : current_host_of env = .jstr ch := by simp [current_host_of, hC]
  rw [hcur]
  exact pyIndex_jstr_present hosts ch hmem

/-- Witness for C1: with host list a, b, c and current host b the computed
rank is 1, the zero-based position of b. -/
theorem rank_eq_position_example :
    rank_of env1 = .ok 1 ∧ (["a", "b", "c"] : List String).indexOf "b" = 1 := by
  constructor
  · exact rank_eq_position_of_current_host env1 ["a", "b", "c"] "b" (by rfl) (by rfl)
      (by decide)
  · decide

/-- C2: when the current host identifier is a string that does not occur in
the (string) host list, the rank computation raises ValueError, main
terminates with that uncaught error having produced no effects at all — in
particular no child process is spawned and no default rank is used. -/
theorem absent_host_rank_lookup_fails (env : Env) (argv : List String)
    (outcome : RunOutcome) (g : Int) (hosts : List String) (ch : String)
    (hG : num_gpus_of env = .ok g)
    (hH : hosts_of env = .ok (.jarr (hosts.map .jstr)))
    (hC : env "SM_CURRENT_HOST" = some ch)
    (hmem : ch ∉ hosts) :
    rank_of env = .error (.valueError "x not in list") ∧
    main env argv outcome = ([], .error (.valueError "x not in list")) := by
  have hcur : current_host_of env = .jstr ch := by simp [current_host_of, hC]
  have hR : pyIndex (.jarr (hosts.map .jstr)) (current_host_of env) =
      .error (.valueError "x not in list") := by
    rw [hcur]
    exact pyIndex_jstr_absent hosts ch hmem
  constructor
  · unfold rank_of
    rw [hH]
    exact hR
  · exact main_err_rank hG hH rfl hR

/-- Witness for C2: hosts a, b, c with current host z — the launcher stops
at the rank lookup with ValueError and an empty effect trace. -/
theorem absent_host_rank_lookup_fails_example :
    rank_of env2 = .error (.valueError "x not in list") ∧
    main env2 [] (.completed 0) = ([], .error (.valueError "x not in list")) :=
  absent_host_rank_lookup_fails env2 [] (.completed 0) 0 ["a", "b", "c"] "z"
    rfl rfl rfl (by decide)

/-- C3: deepspeed_launch (lines 51-56) returns normally whatever the run
outcome is, and when the run raises an exception the exception is logged
at info level and discarded: the launcher's exit status is never made
non-zero by a child-process failure. -/
theorem launch_swallows_child_exceptions :
    (∀ (command : String) (outcome : RunOutcome),
      (deepspeed_launch command outcome).2 = .ok ()) ∧
    (∀ (command e : String),
      deepspeed_launch command (.raised e) =
        ([.runShell command, .logInfo e], .ok ())) := by
  constructor
  · intro command outcome
    cases outcome <;> rfl
  · intro command e
    rfl

/-- C4 counterexample: with SM_NUM_GPUS, SM_HOSTS and SM_CURRENT_HOST all
absent, the launcher does not silently produce a degenerate command — the
empty-object default of SM_HOSTS decodes to a dict, the rank lookup raises
AttributeError, and main dies with an empty effect trace (no command is
built or run). -/
theorem missing_env_not_silent_default :
    main (fun _ => none) [] (.completed 0) =
      ([], .error (.attributeError "dict object has no attribute index")) := rfl

/-- C4 (amended): only a missing SM_NUM_GPUS is silently defaulted (to 0,
yielding a zero-GPU command); a missing SM_HOSTS makes the rank lookup
raise AttributeError on the decoded empty dict, and a missing
SM_CURRENT_HOST defaults to the int 0, which is == to no string host, so
the rank lookup raises ValueError — in both cases the launcher terminates
before building or executing any command. -/
theorem missing_env_behavior :
    (∀ (env : Env) (argv : List String) (outcome : RunOutcome)
       (hosts : List String) (ch : String) (ts : Option String)
       (nargs : List String),
       env "SM_NUM_GPUS" = none →
       hosts_of env = .ok (.jarr (hosts.map .jstr)) →
       env "SM_CURRENT_HOST" = some ch → ch ∈ hosts →
       parse_args argv = .ok (ts, nargs) →
       (main env argv outcome).2 = .ok () ∧
       (main env argv outcome).1.filter isRunShell =
         [.runShell (mkCommand 0 ts nargs)] ∧
       strContains "--num_gpus=0" (mkCommand 0 ts nargs) = true) ∧
    (∀ (env : Env) (argv : List String) (outcome : RunOutcome) (g : Int),
       env "SM_HOSTS" = none → num_gpus_of env = .ok g →
       main env argv outcome =
         ([], .error (.attributeError "dict object has no attribute index"))) ∧
    (∀ (env : Env) (argv : List String) (outcome : RunOutcome) (g : Int)
       (hosts : List String),
       env "SM_CURRENT_HOST" = none → num_gpus_of env = .ok g →
       hosts_of env = .ok (.jarr (hosts.map .jstr)) →
       main env argv outcome = ([], .error (.valueError "x not in list"))) := by
  refine ⟨?_, ?_, ?_⟩
  · intro env argv outcome hosts ch ts nargs h1 hH hC hmem hP
    have hG : num_gpus_of env = .ok 0 := by simp [num_gpus_of, h1]
    have hcur : current_host_of env = .jstr ch := by simp [current_host_of, hC]
    have hR : pyIndex (.jarr (hosts.map .jstr)) (current_host_of env) =
        .ok (hosts.indexOf ch) := by
      rw [hcur]
      exact pyIndex_jstr_present hosts ch hmem
    have hm := main_success env argv outcome hG hH rfl hR hP
    refine ⟨?_, ?_, ?_⟩
    · rw [hm]
      cases outcome <;> rfl
    · rw [hm]
      cases outcome <;> rfl
    · have := mkCommand_embeds_gpus 0 ts nargs
      rwa [show ("--num_gpus=" ++ toString (0 : Int)) = "--num_gpus=0" from rfl] at this
  · intro env argv outcome g hA hG
    have hH : hosts_of env = .ok (.jobj []) := by
      unfold hosts_of
      rw [hA]
      rfl
    exact main_err_rank hG hH rfl rfl
  · intro env argv outcome g hosts hA hG hH
    have hcur : current_host_of env = .jnum 0 := by simp [current_host_of, hA]
    have hR : pyIndex (.jarr (hosts.map .jstr)) (current_host_of env) =
        .error (.valueError "x not in list") := by
      rw [hcur]
      exact pyIndex_jnum_absent hosts 0
    exact main_err_rank hG hH rfl hR

/-- Witness for the amended C4, at three concrete environments: only
SM_NUM_GPUS missing (a zero-GPU command is run), only SM_HOSTS missing
(AttributeError, nothing run), and SM_CURRENT_HOST missing (ValueError,
nothing run). -/
theorem missing_env_behavior_example :
    ((main envNoGpus [] (.completed 0)).2 = .ok () ∧
     (main envNoGpus [] (.completed 0)).1.filter isRunShell =
       [.runShell (mkCommand 0 none [])] ∧
     strContains "--num_gpus=0" (mkCommand 0 none []) = true) ∧
    main envNoHosts [] (.completed 0) =
      ([], .error (.attributeError "dict object has no attribute index")) ∧
    main envNoCurrent [] (.completed 0) =
      ([], .error (.valueError "x not in list")) :=
  ⟨missing_env_behavior.1 envNoGpus [] (.completed 0) ["h0"] "h0" none []
      rfl rfl rfl (by decide) rfl,
   missing_env_behavior.2.1 envNoHosts [] (.completed 0) 4 rfl rfl,
   missing_env_behavior.2.2 envNoCurrent [] (.completed 0) 0 ["h0"] rfl rfl rfl⟩

/-- C5: whenever main returns normally, the effect trace contains exactly
one subprocess.run shell command — the single string of line 45 — and that
string embeds the GPU count read from SM_NUM_GPUS, the training script
text, and all forwarded arguments. -/
theorem single_shell_command_built_and_run (env : Env) (argv : List String)
    (outcome : RunOutcome)
    (h : (main env argv outcome).2 = .ok ()) :
    ∃ g ts nargs,
      num_gpus_of env = .ok g ∧
      parse_args argv = .ok (ts, nargs) ∧
      (main env argv outcome).1.filter isRunShell =
        [.runShell (mkCommand g ts nargs)] ∧
      strContains ("--num_gpus=" ++ toString g) (mkCommand g ts nargs) = true ∧
      strContains (trainStr ts) (mkCommand g ts nargs) = true ∧
      strContains (String.intercalate " " nargs) (mkCommand g ts nargs) = true := by
  cases hG : num_gpus_of env with
  | error e =>
    rw [main_err_gpus hG] at h
    simp at h
  | ok g =>
    cases hH : hosts_of env with
    | error e =>
      rw [main_err_hosts hG hH] at h
      simp at h
    | ok hosts =>
      cases hL : pyLen hosts with
      | error e =>
        rw [main_err_len hG hH hL] at h
        simp at h
      | ok n =>
        cases hR : pyIndex hosts (current_host_of env) with
        | error e =>
          rw [main_err_rank hG hH hL hR] at h
          simp at h
        | ok r =>
          cases hP : parse_args argv with
          | error e =>
            rw [main_err_parse hG hH hL hR hP] at h
            simp at h
          | ok pr =>
            obtain ⟨ts, nargs⟩ := pr
            refine ⟨g, ts, nargs, rfl, rfl, ?_, mkCommand_embeds_gpus g ts nargs,
              mkCommand_embeds_train g ts nargs, mkCommand_embeds_args g ts nargs⟩
            rw [main_success env argv outcome hG hH hL hR hP]
            cases outcome <;> rfl

/-- Witness for C5 at the concrete four-GPU single-host environment with
no extra arguments. -/
theorem single_shell_command_built_and_run_example :
    ∃ g ts nargs,
      num_gpus_of env6 = .ok g ∧
      parse_args [] = .ok (ts, nargs) ∧
      (main env6 [] (.completed 0)).1.filter isRunShell =
        [.runShell (mkCommand g ts nargs)] ∧
      strContains ("--num_gpus=" ++ toString g) (mkCommand g ts nargs) = true ∧
      strContains (trainStr ts) (mkCommand g ts nargs) = true ∧
      strContains (String.intercalate " " nargs) (mkCommand g ts nargs) = true :=
  single_shell_command_built_and_run env6 [] (.completed 0) rfl

/-- C6 counterexample: at the stated environment (four GPUs, single host
h0 which is the current host) with no forwarded arguments, the generated
command is the literal "deepspeed --num_gpus=4 None " — it embeds
--num_gpus=4 but contains no 0 character at all, so it does not embed the
rank value 0; the rank never appears in the command string. -/
theorem command_does_not_embed_rank :
    (main env6 [] (.completed 0)).1.filter isRunShell =
      [.runShell "deepspeed --num_gpus=4 None "] ∧
    strContains "--num_gpus=4" "deepspeed --num_gpus=4 None " = true ∧
    strContains "0" "deepspeed --num_gpus=4 None " = false := by
  refine ⟨rfl, rfl, rfl⟩

/-- C6 (amended): at the stated environment the generated command embeds
the text --num_gpus=4, and the computed rank equals 0 (the rank is printed
in the topology line, not embedded in the command — see the
counterexample). -/
theorem concrete_command_embeds_num_gpus (argv : List String)
    (outcome : RunOutcome) (ts : Option String) (nargs : List String)
    (hP : parse_args argv = .ok (ts, nargs)) :
    rank_of env6 = .ok 0 ∧
    (main env6 argv outcome).1.filter isRunShell =
      [.runShell (mkCommand 4 ts nargs)] ∧
    strContains "--num_gpus=4" (mkCommand 4 ts nargs) = true := by
  refine ⟨rfl, ?_, ?_⟩
  · have hm := main_success env6 argv outcome rfl rfl rfl rfl hP
    rw [hm]
    cases outcome <;> rfl
  · have := mkCommand_embeds_gpus 4 ts nargs
    rwa [show ("--num_gpus=" ++ toString (4 : Int)) = "--num_gpus=4" from rfl] at this

/-- Witness for the amended C6 with an empty argument list. -/
theorem concrete_command_embeds_num_gpus_example :
    rank_of env6 = .ok 0 ∧
    (main env6 [] (.completed 0)).1.filter isRunShell =
      [.runShell (mkCommand 4 none [])] ∧
    strContains "--num_gpus=4" (mkCommand 4 none []) = true :=
  concrete_command_embeds_num_gpus [] (.completed 0) none [] rfl

/-- C7: whenever parse_args succeeds, the forwarded arguments are a
subsequence of the original argument list (each one verbatim, in original
relative order), and their space-joined text is embedded in the command
string built from them. -/
theorem forwarded_args_verbatim_in_order (argv : List String) (ts : Option String)
    (nargs : List String)
    (h : parse_args argv = .ok (ts, nargs)) :
    nargs.Sublist argv ∧
    ∀ g : Int,
      strContains (String.intercalate " " nargs) (mkCommand g ts nargs) = true := by
  have h2 : parseKnownAux argv none [] false false = .ok (ts, nargs) := by
    unfold parse_args at h
    by_cases hc :
      (argv.takeWhile (fun t => t != "--")).any (fun t => isAmbig (classify t))
    · rw [if_pos hc] at h
      simp at h
    · rw [if_neg hc] at h
      exact h
  obtain ⟨tail, htl, hsub⟩ := parseKnownAux_extras argv none [] false false ts nargs h2
  constructor
  · simp only [List.reverse_nil, List.nil_append] at htl
    rw [htl]
    exact hsub
  · intro g
    exact mkCommand_embeds_args g ts nargs

/-- Witness for C7: with --training_script t.py --x 1 the two unrecognized
tokens are forwarded in order. -/
theorem forwarded_args_verbatim_in_order_example :
    (["--x", "1"] : List String).Sublist ["--training_script", "t.py", "--x", "1"] ∧
    ∀ g : Int,
      strContains (String.intercalate " " ["--x", "1"])
        (mkCommand g (some "t.py") ["--x", "1"]) = true :=
  forwarded_args_verbatim_in_order ["--training_script", "t.py", "--x", "1"]
    (some "t.py") ["--x", "1"] rfl

/-- C8: when SM_HOSTS is absent the default string decodes to the empty
JSON object (a dict, not a list), so the rank lookup raises AttributeError
and main terminates with an empty effect trace — no command is built or
executed and no empty host list is used. -/
theorem absent_sm_hosts_parses_as_object_and_fails (env : Env)
    (argv : List String) (outcome : RunOutcome) (g : Int)
    (hA : env "SM_HOSTS" = none)
    (hG : num_gpus_of env = .ok g) :
    jsonLoads "\x7b\x7d" = .ok (.jobj []) ∧
    main env argv outcome =
      ([], .error (.attributeError "dict object has no attribute index")) := by
  refine ⟨rfl, ?_⟩
  have hH : hosts_of env = .ok (.jobj []) := by
    unfold hosts_of
    rw [hA]
    rfl
  exact main_err_rank hG hH rfl rfl

/-- Witness for C8 at a concrete environment with SM_HOSTS unset. -/
theorem absent_sm_hosts_parses_as_object_and_fails_example :
    jsonLoads "\x7b\x7d" = .ok (.jobj []) ∧
    main envNoHosts [] (.completed 0) =
      ([], .error (.attributeError "dict object has no attribute index")) :=
  absent_sm_hosts_parses_as_object_and_fails envNoHosts [] (.completed 0) 4 rfl rfl

/-- C9: when SM_NUM_GPUS is set to a string that int() rejects, line 31
raises ValueError and main terminates with an empty effect trace: the host
list is never decoded, arguments are never parsed, and no child process is
spawned. -/
theorem bad_num_gpus_fails_first (env : Env) (argv : List String)
    (outcome : RunOutcome) (s : String)
    (hS : env "SM_NUM_GPUS" = some s)
    (hBad : (pyInt s).isOk = false) :
    pyInt s = .error (.valueError ("invalid literal for int with base 10: " ++ s)) ∧
    main env argv outcome =
      ([], .error (.valueError ("invalid literal for int with base 10: " ++ s))) := by
  have hPE := pyInt_not_ok s hBad
  have hG : num_gpus_of env =
      .error (.valueError ("invalid literal for int with base 10: " ++ s)) := by
    simp [num_gpus_of, hS, hPE]
  exact ⟨hPE, main_err_gpus hG⟩

/-- Witness for C9 with SM_NUM_GPUS set to the non-numeric string four. -/
theorem bad_num_gpus_fails_first_example :
    pyInt "four" =
      .error (.valueError ("invalid literal for int with base 10: " ++ "four")) ∧
    main envBadGpus [] (.completed 0) =
      ([], .error (.valueError ("invalid literal for int with base 10: " ++ "four"))) :=
  bad_num_gpus_fails_first envBadGpus [] (.completed 0) "four" rfl rfl

/-- C10: when parse_args leaves the training script unset (no
--training_script on the command line) and the topology is well formed,
main still completes normally and runs a command in which the literal text
None, surrounded by the separating spaces, occupies the training-script
position. -/
theorem missing_training_script_yields_none_text (env : Env) (argv : List String)
    (outcome : RunOutcome) (g : Int) (hosts : List String) (ch : String)
    (nargs : List String)
    (hG : num_gpus_of env = .ok g)
    (hH : hosts_of env = .ok (.jarr (hosts.map .jstr)))
    (hC : env "SM_CURRENT_HOST" = some ch)
    (hmem : ch ∈ hosts)
    (hP : parse_args argv = .ok (none, nargs)) :
    (main env argv outcome).2 = .ok () ∧
    (main env argv outcome).1.filter isRunShell =
      [.runShell (mkCommand g none nargs)] ∧
    strContains " None " (mkCommand g none nargs) = true := by
  have hcur : current_host_of env = .jstr ch := by simp [current_host_of, hC]
  have hR : pyIndex (.jarr (hosts.map .jstr)) (current_host_of env) =
      .ok (hosts.indexOf ch) := by
    rw [hcur]
    exact pyIndex_jstr_present hosts ch hmem
  have hm := main_success env argv outcome hG hH rfl hR hP
  refine ⟨?_, ?_, ?_⟩
  · rw [hm]
    cases outcome <;> rfl
  · rw [hm]
    cases outcome <;> rfl
  · unfold mkCommand
    apply strContains_take
    apply strContains_intro _ _ (("deepspeed --num_gpus=" ++ toString g).data) []
    simp [data_append, trainStr, List.append_assoc]

/-- Witness for C10: no --training_script among the arguments, one
forwarded flag. -/
theorem missing_training_script_yields_none_text_example :
    (main envNoGpus ["--x"] (.completed 0)).2 = .ok () ∧
    (main envNoGpus ["--x"] (.completed 0)).1.filter isRunShell =
      [.runShell (mkCommand 0 none ["--x"])] ∧
    strContains " None " (mkCommand 0 none ["--x"]) = true :=
  missing_training_script_yields_none_text envNoGpus ["--x"] (.completed 0) 0
    ["h0"] "h0" ["--x"] rfl rfl rfl (by decide) rfl

end DsLauncher
